import Mathlib

/-!
Verification development for the RodrigoLeite96/api repository: a small book-catalog
service consisting of a Flask HTTP layer (src/app.py), a web scraper
(src/scraping/Scraping.py), a configuration object (src/utils/Config.py) and a
data-model module (src/src/database/Database.py).

The Python sources are shallowly embedded below.  Pure string manipulation is
modelled on `List Char` / `String`; the database session becomes explicit
state passing over a `List Book` store; fallible paths return `Except`.
Third-party library calls (werkzeug password hashing, PyJWT decoding) are
treated as function parameters so theorems quantify over their behaviour;
library helpers with fixed, documented behaviour (urllib.parse, str.strip,
str.title, SQL LIKE) are modelled directly.
-/

namespace Api

/-! ## Python string primitives -/

/-- ASCII lower-casing of one character; models the effect of Python
`str.lower` and SQL `lower()` on the ASCII range (the only range exercised
by this repository: category names, sentinel labels, search parameters). -/
def lowCh (c : Char) : Char :=
  match c with
  | 'A' => 'a' | 'B' => 'b' | 'C' => 'c' | 'D' => 'd' | 'E' => 'e' | 'F' => 'f'
  | 'G' => 'g' | 'H' => 'h' | 'I' => 'i' | 'J' => 'j' | 'K' => 'k' | 'L' => 'l'
  | 'M' => 'm' | 'N' => 'n' | 'O' => 'o' | 'P' => 'p' | 'Q' => 'q' | 'R' => 'r'
  | 'S' => 's' | 'T' => 't' | 'U' => 'u' | 'V' => 'v' | 'W' => 'w' | 'X' => 'x'
  | 'Y' => 'y' | 'Z' => 'z'
  | other => other

/-- ASCII upper-casing of one character; models Python `str.upper` on one char. -/
def upCh (c : Char) : Char :=
  match c with
  | 'a' => 'A' | 'b' => 'B' | 'c' => 'C' | 'd' => 'D' | 'e' => 'E' | 'f' => 'F'
  | 'g' => 'G' | 'h' => 'H' | 'i' => 'I' | 'j' => 'J' | 'k' => 'K' | 'l' => 'L'
  | 'm' => 'M' | 'n' => 'N' | 'o' => 'O' | 'p' => 'P' | 'q' => 'Q' | 'r' => 'R'
  | 's' => 'S' | 't' => 'T' | 'u' => 'U' | 'v' => 'V' | 'w' => 'W' | 'x' => 'X'
  | 'y' => 'Y' | 'z' => 'Z'
  | other => other

def lowerL (l : List Char) : List Char := l.map lowCh

/-- Models Python `str.lower()`. -/
def pyLower (s : String) : String := ⟨lowerL s.data⟩

def stripL (l : List Char) : List Char :=
  ((l.dropWhile Char.isWhitespace).reverse.dropWhile Char.isWhitespace).reverse

/-- Models Python `str.strip()` (whitespace trimming at both ends). -/
def pyStrip (s : String) : String := ⟨stripL s.data⟩

def titleGo : List Char → Bool → List Char
  | [], _ => []
  | c :: r, prevAlpha =>
      (if c.isAlpha then (if prevAlpha then lowCh c else upCh c) else c) :: titleGo r c.isAlpha

/-- Models Python `str.title()`: the first alphabetic character of every
alphabetic run is upper-cased and the rest of the run lower-cased. -/
def pyTitle (s : String) : String := ⟨titleGo s.data false⟩

/-- Python truthiness of an optional string: `None` and the empty string are falsy. -/
def pyFalsy : Option String → Bool
  | none => true
  | some s => s == ""

/-- Python `a or b` where `a` is an optional string and the whole expression is
again an optional string (`None` and `""` select the right operand). -/
def pyOrOpt (a b : Option String) : Option String :=
  match a with
  | some s => if s == "" then b else some s
  | none => b

/-- Python `a or d` where `a` is an optional string and `d` a plain string. -/
def pyStrOr (a : Option String) (d : String) : String :=
  match a with
  | some s => if s == "" then d else s
  | none => d

/-- `suffAny f s` is true when `f` holds of some suffix of `s` (including `s`
itself and the empty suffix). -/
def suffAny (f : List Char → Bool) : List Char → Bool
  | [] => f []
  | c :: s => f (c :: s) || suffAny f s

/-- Substring test on character lists; models the Python `in` operator on strings
(`sub in s`), true when `n` occurs contiguously inside `h`. -/
def containsSub (n h : List Char) : Bool := suffAny (fun t => n.isPrefixOf t) h

/-- String-level substring test, models Python `"sub" in s`. -/
def containsSubStr (n h : String) : Bool := containsSub n.data h.data

/-- Models Python `s.startswith(pre)` by character-list prefix comparison. -/
def pyStartsWith (s pre : String) : Bool := pre.data.isPrefixOf s.data

/-- Remainder of `l` after the first occurrence of `sep`; `none` when `sep`
does not occur.  Models `s.split(sep, 1)[1]` for a nonempty separator. -/
def splitAfterFirst (sep : List Char) : List Char → Option (List Char)
  | [] => if sep.isPrefixOf ([] : List Char) then some [] else none
  | c :: s =>
      if sep.isPrefixOf (c :: s) then some ((c :: s).drop sep.length)
      else splitAfterFirst sep s

/-- Total version of `splitAfterFirst` used behind a containment guard. -/
def afterFirstSub (sep l : List Char) : List Char := (splitAfterFirst sep l).getD []

/-- Everything before the last occurrence of `sep`, the whole list when `sep`
is absent.  Models Python `s.rsplit(sep, 1)[0]` for a one-character separator. -/
def rsplitBefore (sep : Char) (l : List Char) : List Char :=
  if l.contains sep then ((l.reverse.dropWhile (fun c => c != sep)).drop 1).reverse else l

/-- Models Python `str.replace("-", " ")`. -/
def dashToSpace (l : List Char) : List Char := l.map (fun c => if c == '-' then ' ' else c)

/-- Models `urllib.parse.urlparse(url).path` for the URL shapes this repository
meets (absolute http/https URLs and scheme-less path strings): drop the scheme
and network-location part when a `://` separator is present, then cut the
remainder at the first query or fragment delimiter. -/
def urlparse_path (url : String) : String :=
  let l := url.data
  let afterScheme : List Char :=
    match splitAfterFirst ("://".data) l with
    | some rest => rest.dropWhile (fun c => c != '/')
    | none => l
  ⟨afterScheme.takeWhile (fun c => !(c == '?') && !(c == '#'))⟩

/-- Models `urllib.parse.urljoin(base, url)` for the reference shapes the scraper
produces: a missing or empty reference yields the base unchanged, an absolute
reference replaces the base, and a relative reference is appended to the base
directory (the scraped site uses plain relative file names without dot segments). -/
def urljoin (base : String) (url : Option String) : String :=
  match url with
  | none => base
  | some u =>
      if u == "" then base
      else if containsSubStr "://" u then u
      else ⟨(base.data.reverse.dropWhile (fun c => c != '/')).reverse ++ u.data⟩

/-! ## SQL LIKE (used by SQLAlchemy `ilike` in `search_books`, src/app.py:452-455)

`Column.ilike(pat)` compiles to a case-insensitive SQL `LIKE`: `%` matches any
(possibly empty) run of characters, `_` matches exactly one character, any
other pattern character matches itself; both operands are lower-cased. -/

/-- Core LIKE pattern matcher on character lists (no escape character, as in
the generated SQL, which uses no ESCAPE clause). -/
def likeMatch : List Char → List Char → Bool
  | [], s => s.isEmpty
  | p :: ps, s =>
      if p = '%' then suffAny (likeMatch ps) s
      else
        match s with
        | [] => false
        | c :: s' => (p == '_' || p == c) && likeMatch ps s'

/-- Case-insensitive LIKE test; models `col.ilike(pattern)` applied to `target`. -/
def ilikeTest (pattern target : String) : Bool :=
  likeMatch (lowerL pattern.data) (lowerL target.data)

/-! ## Data model (src/app.py:35-49)

`Books` rows as persisted by the ingestion path.  The auto-assigned integer
primary key is never examined by any claim and is omitted; a stored row is the
tuple of the six columns the application writes.  `category` keeps the
`Option` shape of the value the scraper hands over (the column is declared
NOT NULL, which the commit model below enforces). -/

structure Book where
  title : String
  category : Option String
  availability : Option String
  rating : Option Nat
  product_url : String
  image_url : Option String
deriving DecidableEq

/-- Transient scraped entry produced by `parse_book_card`
(src/scraping/Scraping.py:96-104): the dict with keys title, price,
availability, rating, category, product_url, image_url. -/
structure ScrapedRow where
  title : String
  price : Option String
  availability : Option String
  rating : Option Nat
  category : Option String
  product_url : String
  image_url : Option String
deriving DecidableEq

/-- The column projection performed by `trigger_scraping` when building a
`Books` row from a dataframe row (src/app.py:141-148); `price` is dropped. -/
def rowToBook (r : ScrapedRow) : Book :=
  { title := r.title
    category := r.category
    availability := r.availability
    rating := r.rating
    product_url := r.product_url
    image_url := r.image_url }

/-! ## Scrape-trigger ingestion (src/app.py:102-165) -/

/-- Response of the scrape-trigger endpoint.  `noData` renders as HTTP 400
with msg "No data scraped"; `ok inserted total` renders as HTTP 200 with the
"Successfully added {inserted} new books" message and `total_processed = total`;
`fail e` renders as HTTP 500 with body `{"error": e}`. -/
inductive ScrapeResp
  | noData
  | ok (inserted : Nat) (total : Nat)
  | fail (msg : String)
deriving DecidableEq

def respStatus : ScrapeResp → Nat
  | .noData => 400
  | .ok _ _ => 200
  | .fail _ => 500

/-- `db_session.rollback()`: pending staged rows are discarded, the committed
store is left untouched. -/
def rollback (db _staged : List Book) : List Book := db

/-- `db_session.commit()`: appends the staged rows to the committed store.
The `books.category` column is declared NOT NULL (src/app.py:45), so a staged
row with an absent category makes the commit fail with an integrity error. -/
def commitBooks (db staged : List Book) : Except String (List Book) :=
  if staged.all (fun b => b.category.isSome) then .ok (db ++ staged)
  else .error "NOT NULL constraint failed: books.category"

/-- The per-row insertion loop of `trigger_scraping` (src/app.py:138-150):
each row is looked up by exact title among the committed rows plus the rows
already staged in this session (the session autoflushes pending rows before
the query), and staged only when no match exists.  Returns the staged rows and
the `inserted_count`. -/
def ingestLoop (store : List Book) : List Book → Nat → List ScrapedRow → List Book × Nat
  | staged, inserted, [] => (staged, inserted)
  | staged, inserted, r :: rs =>
      if ((store ++ staged).map Book.title).contains r.title then
        ingestLoop store staged inserted rs
      else
        ingestLoop store (staged ++ [rowToBook r]) (inserted + 1) rs

/-- `trigger_scraping` (src/app.py:129-165) over an explicit store.  `df` is
the dataframe returned by `scraping.save_to_dataframe()` (already fetched;
`none` stands for a `None` frame).  `failure = some (k, msg)` injects the
exception raised while staging rows or committing: `k` rows have been staged
when the exception with text `msg` fires, after which the handler rolls the
session back and answers 500 with the raw error text.  Returns the store
after the call together with the response. -/
def trigger_scraping (store : List Book) (df : Option (List ScrapedRow))
    (failure : Option (Nat × String)) : List Book × ScrapeResp :=
  match df with
  | none => (store, .noData)
  | some rows =>
      if rows.isEmpty then (store, .noData)
      else
        match failure with
        | some (k, msg) =>
            let staged := (ingestLoop store [] 0 (rows.take k)).1
            (rollback store staged, .fail msg)
        | none =>
            let si := ingestLoop store [] 0 rows
            match commitBooks store si.1 with
            | .ok db' => (db', .ok si.2 rows.length)
            | .error e => (rollback store si.1, .fail e)

/-! ## Authentication (src/app.py:60-94, 185-293) -/

/-- Outcome of `jwt.decode(token, JWT_SECRET, algorithms=[JWT_ALGORITHM])`
as discriminated by the handler: success, `jwt.ExpiredSignatureError`, or any
other `jwt.InvalidTokenError`.  The decode itself is third-party code, so the
guard below is parametrised over it. -/
inductive TokenStatus
  | ok (username : String)
  | expired
  | invalid
deriving DecidableEq

/-- Result of a guarded route call: either the guard short-circuits with an
HTTP status and error message, or the wrapped handler runs and produces a value. -/
inductive GuardResult (α : Type)
  | denied (status : Nat) (error : String)
  | allowed (val : α)
deriving DecidableEq

/-- Models Python `s.split(sep)` for a one-character separator: splits at every
occurrence and keeps empty fragments, like the Python method. -/
def pySplit (sep : Char) : List Char → List (List Char)
  | [] => [[]]
  | c :: s =>
      let rest := pySplit sep s
      if c == sep then [] :: rest
      else
        match rest with
        | [] => [[c]]
        | g :: gs => (c :: g) :: gs

/-- The token extracted by `auth_header.split(" ")[1]` (src/app.py:78). -/
def bearerToken (h : String) : String := ⟨(pySplit ' ' h.data).getD 1 []⟩

/-- `token_required` decorator (src/app.py:72-86): checks the Authorization
header shape, decodes the token, and only on success invokes the wrapped
handler `f`.  `auth_header` is `request.headers.get("Authorization")`. -/
def token_required {α : Type} (decode : String → TokenStatus)
    (auth_header : Option String) (f : Unit → α) : GuardResult α :=
  match auth_header with
  | none => .denied 401 "Token ausente"
  | some h =>
      if !(pyStartsWith h "Bearer ") then .denied 401 "Token ausente"
      else
        match decode (bearerToken h) with
        | .expired => .denied 401 "Token expirado"
        | .invalid => .denied 401 "Token inválido"
        | .ok _ => .allowed (f ())

/-- `create_token` (src/app.py:64-69): `jwt.encode` of the payload
`{"username": username, "exp": now + 3600}` under the fixed HS256 secret.
The third-party encoder is modelled as a rendering of that payload; a compact
JWS is always a nonempty string, which is the only property any claim uses. -/
def create_token (username : String) (now : Nat) : String :=
  "jwt." ++ username ++ "." ++ toString (now + 3600)

/-- A persisted `users` row (src/app.py:35-39): username plus stored password
hash.  The auto-assigned id is never examined. -/
structure UserRec where
  username : String
  password : String
deriving DecidableEq

/-- Responses of the auth endpoints as the claims examine them. -/
inductive AuthResp
  | err (status : Nat) (error : String)
  | created
  | okToken (access_token : String)
deriving DecidableEq

/-- `register_user` (src/app.py:216-240) over an explicit user store.
`genHash` is werkzeug `generate_password_hash` (third-party, parametrised).
Returns the store after the call and the response. -/
def register_user (genHash : String → String) (store : List UserRec)
    (username password : Option String) : List UserRec × AuthResp :=
  if pyFalsy username || pyFalsy password then
    (store, .err 400 "Missing username or password")
  else
    let u := username.getD ""
    let p := password.getD ""
    match store.find? (fun x => x.username == u) with
    | some _ => (store, .err 400 "User already exists")
    | none => (store ++ [{ username := u, password := genHash p }], .created)

/-- `login` (src/app.py:274-293).  `checkHash` is werkzeug
`check_password_hash` (third-party, parametrised); `now` feeds the token
expiry clock. -/
def login (checkHash : String → String → Bool) (now : Nat) (store : List UserRec)
    (username password : Option String) : AuthResp :=
  if pyFalsy username || pyFalsy password then .err 400 "Missing credentials"
  else
    let u := username.getD ""
    let p := password.getD ""
    match store.find? (fun x => x.username == u) with
    | none => .err 401 "Invalid credentials"
    | some user =>
        if checkHash user.password p then .okToken (create_token user.username now)
        else .err 401 "Invalid credentials"

/-! ## Book search endpoint (src/app.py:415-473) -/

/-- Search response: 404 `{"msg": "No books found"}` or 200 with the matching
rows in store order. -/
inductive SearchResp
  | notFound
  | found (books : List Book)
deriving DecidableEq

/-- The category filter of `search_books`: a row whose `category` is NULL
never satisfies a SQL LIKE (NULL comparisons are not true), hence the
`none => false` branch. -/
def ilikeCategory (pat : String) (b : Book) : Bool :=
  match b.category with
  | none => false
  | some c => ilikeTest pat c

/-- `search_books` (src/app.py:445-473): optional `title` and `category`
query parameters; a missing-or-empty parameter (Python falsiness of
`request.args.get`) applies no filter, otherwise the store is filtered with
`ilike("%param%")`. -/
def search_books (store : List Book) (title category : Option String) : SearchResp :=
  let q1 :=
    match title with
    | some t => if t != "" then store.filter (fun b => ilikeTest ("%" ++ t ++ "%") b.title) else store
    | none => store
  let q2 :=
    match category with
    | some c => if c != "" then q1.filter (ilikeCategory ("%" ++ c ++ "%")) else q1
    | none => q1
  if q2.isEmpty then .notFound else .found q2

/-! ## Scraper (src/scraping/Scraping.py) -/

/-- Modelled from the spec: `RATING_MAP` is imported from `utils/Constants.py`,
a module of this repository that is not among the provided sources.  Per the
spec (section 4.3), the source site encodes a one-to-five star rating as a CSS
class token; the five recognized tokens correspond to ratings one through five
and any unrecognized token yields an absent rating. -/
def RATING_MAP : List (String × Nat) :=
  [("One", 1), ("Two", 2), ("Three", 3), ("Four", 4), ("Five", 5)]

/-- The `for cls in ...: if cls in RATING_MAP: rating = ...; break` scan of
`parse_book_card` (src/scraping/Scraping.py:85-91): first recognized class
token wins. -/
def firstRating : List String → Option Nat
  | [] => none
  | c :: cs =>
      match RATING_MAP.lookup c with
      | some n => some n
      | none => firstRating cs

/-- The `h3 a` anchor of a product card: its optional `title` attribute and
optional `href` attribute. -/
structure LinkEl where
  title : Option String
  href : Option String
deriving DecidableEq

/-- The `div.image_container img` element with its optional `src` attribute. -/
structure ImgEl where
  src : Option String
deriving DecidableEq

/-- One `article.product_pod` card as `parse_book_card` consumes it: the
optional `h3 a` anchor, the stripped text of the optional price and
availability elements, the class-token list of the optional `p.star-rating`
element, and the optional image element. -/
structure Card where
  link : Option LinkEl
  price_el : Option String
  avail_el : Option String
  rating_p : Option (List String)
  img : Option ImgEl
deriving DecidableEq

/-- `parse_book_card` (src/scraping/Scraping.py:53-104).  A card without the
`h3 a` anchor makes `a.get("title", "")` dereference `None`, which raises an
`AttributeError`; every other missing element degrades to an absent field.
`urljoin(base, None)` returns the base unchanged (urllib treats a falsy
reference that way), so a missing `href` or `src` attribute does not raise. -/
def parse_book_card (card : Card) (base_url : String) (category : Option String) :
    Except String ScrapedRow :=
  match card.link with
  | none => .error "AttributeError: NoneType object has no attribute get"
  | some a =>
      let title := pyStrip (a.title.getD "")
      let product_url := urljoin base_url a.href
      let price := card.price_el
      let availability := card.avail_el
      let rating :=
        match card.rating_p with
        | none => none
        | some cls => firstRating cls
      let image_url := card.img.map (fun im => urljoin base_url im.src)
      .ok { title := title, price := price, availability := availability,
            rating := rating, category := category, product_url := product_url,
            image_url := image_url }

/-- `extract_category_from_listing` (src/scraping/Scraping.py:107-136).
`breadcrumb_active` is the raw text of `ul.breadcrumb li.active` when the
element exists (`get_text(strip=True)` strips it); the fallback reads the
`/category/books/<slug>/` segment of the listing URL path. -/
def extract_category_from_listing (breadcrumb_active : Option String)
    (listing_url : String) : Option String :=
  let fromCrumb : Option String :=
    match breadcrumb_active with
    | some t =>
        let cat := pyStrip t
        if cat != "" && !(["home", "books", "all products"].contains (pyLower cat)) then
          some cat
        else none
    | none => none
  match fromCrumb with
  | some c => some c
  | none =>
      let path := urlparse_path listing_url
      if containsSubStr "/category/books/" path then
        let part := afterFirstSub ("/category/books/".data) path.data
        let slug := part.takeWhile (fun c => c != '/')
        let name := pyStrip ⟨dashToSpace (rsplitBefore '_' slug)⟩
        if name != "" then some (pyTitle name) else none
      else none

/-- One listing page as the scraper reads it: breadcrumb active text, product
cards, and the `href` of the `li.next > a` pagination anchor when present. -/
structure PageDoc where
  breadcrumb_active : Option String
  cards : List Card
  next_href : Option String
deriving DecidableEq

/-- `parse_category_page` (src/scraping/Scraping.py:138-161) against a site
modelled as a total URL-to-page map (fetch failures are outside the claims
settled here).  A card-parsing exception propagates. -/
def parse_category_page (site : String → PageDoc) (url : String)
    (known_category : Option String) :
    Except String (List ScrapedRow × Option String × Option String) :=
  let soup := site url
  let category := pyOrOpt known_category (extract_category_from_listing soup.breadcrumb_active url)
  match soup.cards.mapM (fun c => parse_book_card c url category) with
  | .error e => .error e
  | .ok rows =>
      let next_url := soup.next_href.map (fun h => urljoin url (some h))
      .ok (rows, next_url, category)

/-- The `while url:` loop of `crawl_category` (src/scraping/Scraping.py:197-206),
with explicit fuel: a run that still has a next page when the fuel is spent is
reported as an error, so an `.ok` result corresponds exactly to a terminating
run of the Python loop. -/
def crawl_go (site : String → PageDoc) (name : String) :
    Nat → Option String → List ScrapedRow → Except String (List ScrapedRow)
  | _, none, acc => .ok acc
  | 0, some _, _ => .error "fuel exhausted"
  | Nat.succ fuel, some u, acc =>
      match parse_category_page site u (some name) with
      | .error e => .error e
      | .ok (rows, next, detected) =>
          let cat_name : String := pyStrOr detected name
          let rows' := rows.map (fun r => { r with category := some cat_name })
          crawl_go site name fuel next (acc ++ rows')

/-- `crawl_category` (src/scraping/Scraping.py:185-206): crawl one category to
exhaustion starting from `url`, with the sidebar-supplied `name`. -/
def crawl_category (site : String → PageDoc) (fuel : Nat) (name : String)
    (url : String) : Except String (List ScrapedRow) :=
  crawl_go site name fuel (some url) []

/-! ## Configuration (src/utils/Config.py and src/app.py:26-30) -/

/-- The fields `Config.__init__` assigns (src/utils/Config.py:7-17). -/
structure ConfigFields where
  SECRET_KEY : String
  CACHE_TYPE : String
  SWAGGER_title : String
  SWAGGER_uiversion : Nat
  SQLALCHEMY_DATABASE_URI : String
  SQLALCHEMY_TRACK_MODIFICATIONS : Bool
  JWT_SECRET_KEY : String
deriving DecidableEq

/-- `Config.__init__` (src/utils/Config.py:7-17).  The parameter models the
process environment (`os.environ`); the constructor reads no environment
variable, so the result is independent of it. -/
def Config_init (_env : String → Option String) : ConfigFields :=
  { SECRET_KEY := "1234"
    CACHE_TYPE := "simple"
    SWAGGER_title := "Catálogo de Livros"
    SWAGGER_uiversion := 3
    SQLALCHEMY_DATABASE_URI := "sqlite:////tmp/database.db"
    SQLALCHEMY_TRACK_MODIFICATIONS := false
    JWT_SECRET_KEY := "1234" }

/-- `DB_URL` (src/app.py:27): `os.getenv("DATABASE_URL", "sqlite:////tmp/predictions.db")`. -/
def DB_URL (env : String → Option String) : String :=
  (env "DATABASE_URL").getD "sqlite:////tmp/predictions.db"

/-! ## Spec-side definitions

Definitions in this section follow the wording of the specification (spec.md),
for comparison against the source-derived definitions above. -/

/-- Case-insensitive substring test, the matching relation the spec ascribes to
the search endpoint ("each matched case-insensitively as a substring"). -/
def containsCI (needle target : String) : Bool :=
  containsSub (lowerL needle.data) (lowerL target.data)

/-- The search endpoint as the spec describes it: each provided parameter
filters the store by case-insensitive substring containment (a row with an
absent category is compared as the empty string), both filters conjunctively,
404 exactly when the result set is empty. -/
def search_books_spec (store : List Book) (title category : Option String) : SearchResp :=
  let q1 :=
    match title with
    | none => store
    | some t => store.filter (fun b => containsCI t b.title)
  let q2 :=
    match category with
    | none => q1
    | some c => q1.filter (fun b => containsCI c (b.category.getD ""))
  if q2.isEmpty then .notFound else .found q2

/-- Category determination as the claim words it: the trimmed breadcrumb active
text when non-empty and not a sentinel label; otherwise the URL fallback
(strip the trailing underscore suffix from the slug, hyphens to spaces,
title-case), absent when neither source yields a name. -/
def category_determination_spec (breadcrumb_active : Option String)
    (listing_url : String) : Option String :=
  let crumb : Option String :=
    (breadcrumb_active.map pyStrip).bind (fun c =>
      if c != "" && !(["home", "books", "all products"].contains (pyLower c)) then some c
      else none)
  match crumb with
  | some c => some c
  | none =>
      let path := urlparse_path listing_url
      if containsSubStr "/category/books/" path then
        let slug := (afterFirstSub ("/category/books/".data) path.data).takeWhile (fun c => c != '/')
        let name := pyStrip ⟨dashToSpace (rsplitBefore '_' slug)⟩
        if name != "" then some (pyTitle name) else none
      else none

/-! ## Supporting lemmas -/

theorem pyStrOr_pyOrOpt_self (name : String) (e : Option String) (h : name ≠ "") :
    pyStrOr (pyOrOpt (some name) e) name = name := by
  simp only [pyOrOpt, pyStrOr]
  rw [if_neg (by simpa using h)]
  split
  · next s hs =>
      cases hs
      split <;> rfl
  · next hs => cases hs

theorem find?_append_singleton {p : UserRec → Bool} {l : List UserRec} {x : UserRec}
    (h : l.find? p = none) :
    (l ++ [x]).find? p = if p x then some x else none := by
  rw [List.find?_append, h]
  cases hx : p x <;> simp [List.find?, hx]

theorem create_token_ne_empty (u : String) (now : Nat) : create_token u now ≠ "" := by
  intro h
  have hlen := congrArg String.length h
  simp only [create_token, String.length_append] at hlen
  have h4 : ("jwt." : String).length = 4 := by decide
  have h1 : ("." : String).length = 1 := by decide
  have h0 : ("" : String).length = 0 := by decide
  rw [h4, h1, h0] at hlen
  omega

/-! ## Claim theorems -/

/-- Claim C2: on a token-protected route, a missing Authorization header or one
not starting with the `Bearer ` form is answered 401 "Token ausente"; an
expired token 401 "Token expirado"; an otherwise invalid token 401
"Token inválido"; and in all three failure cases the wrapped handler never
executes — the guard result is `denied` and does not depend on the handler,
so no persistence access of the handler can occur. -/
theorem token_required_rejects {α : Type} (decode : String → TokenStatus)
    (auth : Option String) (f g : Unit → α) :
    ((auth = none ∨ ∃ h, auth = some h ∧ pyStartsWith h "Bearer " = false) →
      token_required decode auth f = .denied 401 "Token ausente"
        ∧ token_required decode auth f = token_required decode auth g)
    ∧ (∀ h, auth = some h → pyStartsWith h "Bearer " = true →
        decode (bearerToken h) = .expired →
        token_required decode auth f = .denied 401 "Token expirado"
          ∧ token_required decode auth f = token_required decode auth g)
    ∧ (∀ h, auth = some h → pyStartsWith h "Bearer " = true →
        decode (bearerToken h) = .invalid →
        token_required decode auth f = .denied 401 "Token inválido"
          ∧ token_required decode auth f = token_required decode auth g) := by
  refine ⟨?_, ?_, ?_⟩
  · rintro (rfl | ⟨h, rfl, hb⟩)
    · exact ⟨rfl, rfl⟩
    · simp [token_required, hb]
  · rintro h rfl hb hd
    simp [token_required, hb, hd]
  · rintro h rfl hb hd
    simp [token_required, hb, hd]

/-- Concrete decode function for the C2 witness: one token decodes fine, one is
expired, everything else is structurally invalid. -/
def decodeW : String → TokenStatus := fun t =>
  if t == "good" then .ok "admin" else if t == "exp" then .expired else .invalid

def handlerW : Unit → Nat := fun _ => 0

def handlerW2 : Unit → Nat := fun _ => 1

theorem token_required_rejects_witness :
    token_required decodeW none handlerW = .denied 401 "Token ausente"
    ∧ token_required decodeW (some "Basic abc") handlerW = .denied 401 "Token ausente"
    ∧ token_required decodeW (some "Bearer exp") handlerW = .denied 401 "Token expirado"
    ∧ token_required decodeW (some "Bearer zzz") handlerW = .denied 401 "Token inválido"
    ∧ token_required decodeW (some "Bearer exp") handlerW
        = token_required decodeW (some "Bearer exp") handlerW2 := by
  refine ⟨?_, ?_, ?_, ?_, ?_⟩
  · exact ((token_required_rejects decodeW none handlerW handlerW2).1 (Or.inl rfl)).1
  · exact ((token_required_rejects decodeW (some "Basic abc") handlerW handlerW2).1
      (Or.inr ⟨"Basic abc", rfl, by decide⟩)).1
  · exact ((token_required_rejects decodeW (some "Bearer exp") handlerW handlerW2).2.1
      "Bearer exp" rfl (by decide) (by decide)).1
  · exact ((token_required_rejects decodeW (some "Bearer zzz") handlerW handlerW2).2.2
      "Bearer zzz" rfl (by decide) (by decide)).1
  · exact ((token_required_rejects decodeW (some "Bearer exp") handlerW handlerW2).2.1
      "Bearer exp" rfl (by decide) (by decide)).2

/-- Claim C3: starting from a store with no user named `u`, registering a
non-empty `u`/`p` succeeds (201) and a subsequent login with the same
credentials returns 200 with a non-empty access token, while a login with any
non-empty password that does not verify against the stored hash returns 401.
`genHash`/`checkHash` are the werkzeug hash functions; the hypothesis
`hverify` is their documented round-trip contract. -/
theorem register_login_roundtrip (genHash : String → String)
    (checkHash : String → String → Bool) (store : List UserRec)
    (u p : String) (now : Nat)
    (hu : u ≠ "") (hp : p ≠ "")
    (hnew : store.find? (fun x => x.username == u) = none)
    (hverify : checkHash (genHash p) p = true) :
    (register_user genHash store (some u) (some p)).2 = .created
    ∧ (∃ t, login checkHash now (register_user genHash store (some u) (some p)).1
        (some u) (some p) = .okToken t ∧ t ≠ "")
    ∧ (∀ p', p' ≠ "" → checkHash (genHash p) p' = false →
        login checkHash now (register_user genHash store (some u) (some p)).1
          (some u) (some p') = .err 401 "Invalid credentials") := by
  have hfu : pyFalsy (some u) = false := by simpa [pyFalsy] using hu
  have hfp : pyFalsy (some p) = false := by simpa [pyFalsy] using hp
  have hreg : register_user genHash store (some u) (some p)
      = (store ++ [⟨u, genHash p⟩], .created) := by
    simp [register_user, hfu, hfp, hnew]
  have hfind : (store ++ [(⟨u, genHash p⟩ : UserRec)]).find? (fun x => x.username == u)
      = some ⟨u, genHash p⟩ := by
    rw [find?_append_singleton hnew]
    simp
  refine ⟨by rw [hreg], ?_, ?_⟩
  · refine ⟨create_token u now, ?_, create_token_ne_empty u now⟩
    rw [hreg]
    simp [login, hfu, hfp, hfind, hverify]
  · intro p' hp' hbad
    have hfp' : pyFalsy (some p') = false := by simpa [pyFalsy] using hp'
    rw [hreg]
    simp [login, hfu, hfp', hfind, hbad]

def genHashW : String → String := fun p => "h" ++ p

def checkHashW : String → String → Bool := fun h p => h == "h" ++ p

theorem register_login_roundtrip_witness :
    (register_user genHashW [] (some "u1") (some "p1")).2 = .created
    ∧ (∃ t, login checkHashW 0 (register_user genHashW [] (some "u1") (some "p1")).1
        (some "u1") (some "p1") = .okToken t ∧ t ≠ "")
    ∧ login checkHashW 0 (register_user genHashW [] (some "u1") (some "p1")).1
        (some "u1") (some "wrong") = .err 401 "Invalid credentials" := by
  have H := register_login_roundtrip genHashW checkHashW [] "u1" "p1" 0
    (by decide) (by decide) rfl (by decide)
  exact ⟨H.1, H.2.1, H.2.2 "wrong" (by decide) (by decide)⟩

/-- Claim C10: on the search endpoint an empty-string query parameter is
treated exactly like an absent one (no filter is applied for it), so searching
with an empty title returns every book, and 404 exactly when the store is
empty. -/
theorem search_empty_param_like_absent (store : List Book) :
    search_books store (some "") none = search_books store none none
    ∧ search_books store (some "") (some "") = search_books store none none
    ∧ search_books store (some "") none =
        (if store.isEmpty then .notFound else .found store) := by
  refine ⟨rfl, rfl, ?_⟩
  simp only [search_books, pyFalsy]
  rfl

/-- The listing URL of the C5 example. -/
def travelURL : String :=
  "http://books.toscrape.com/catalogue/category/books/travel_2/index.html"

/-- Claim C5: category determination returns the trimmed breadcrumb active text
when non-empty and not a sentinel label (case-insensitively "home", "books",
"all products"); otherwise falls back to the `/category/books/<slug>` URL path
segment with the trailing underscore suffix stripped, hyphens replaced by
spaces and the result title-cased; otherwise no category.  In particular the
travel_2 listing URL yields "Travel" when the breadcrumb is missing or reads
"All products". -/
theorem extract_category_matches_spec :
    (∀ (b : Option String) (url : String),
      extract_category_from_listing b url = category_determination_spec b url)
    ∧ extract_category_from_listing none travelURL = some "Travel"
    ∧ extract_category_from_listing (some "All products") travelURL = some "Travel" := by
  refine ⟨fun b url => ?_, by decide, by decide⟩
  cases b <;> rfl

/-- Claim C9 counterexample: constructing the configuration object in an
environment where DATABASE_URL is set still yields the fixed sqlite URI — the
constructor reads no environment variable, so its database URI is not
overridable by DATABASE_URL as the claim states. -/
theorem Config_uri_not_env_overridable :
    (Config_init (fun k => if k = "DATABASE_URL" then some "postgresql://other/db"
      else none)).SQLALCHEMY_DATABASE_URI = "sqlite:////tmp/database.db"
    ∧ "sqlite:////tmp/database.db" ≠ "postgresql://other/db" :=
  ⟨rfl, by decide⟩

/-- Claim C9 (amended): constructing the configuration object sets secret key
"1234", cache type "simple", documentation title "Catálogo de Livros" with UI
version 3, change-tracking disabled, a token-signing key, and the fixed
database URI `sqlite:////tmp/database.db`, independently of the environment;
the DATABASE_URL override instead applies to the separate module-level engine
connection string `DB_URL`, whose default is `sqlite:////tmp/predictions.db`. -/
theorem Config_init_fields :
    (∀ env, Config_init env =
      ⟨"1234", "simple", "Catálogo de Livros", 3, "sqlite:////tmp/database.db",
        false, "1234"⟩)
    ∧ DB_URL (fun _ => none) = "sqlite:////tmp/predictions.db"
    ∧ (∀ (env : String → Option String) (v : String),
        DB_URL (fun k => if k = "DATABASE_URL" then some v else env k) = v) := by
  refine ⟨fun env => rfl, rfl, fun env v => ?_⟩
  simp [DB_URL]

/-- Claim C7: whenever the scrape-trigger call answers with an error response
(an exception was raised while staging rows or committing, including a commit
rejected by the NOT NULL constraint), the unit of work has been rolled back:
the books store after the call is exactly the store before it, and the
response is a 500 carrying the raw error text. -/
theorem trigger_scraping_atomic_on_failure (store : List Book)
    (df : Option (List ScrapedRow)) (failure : Option (Nat × String)) (msg : String)
    (hfail : (trigger_scraping store df failure).2 = .fail msg) :
    (trigger_scraping store df failure).1 = store
    ∧ trigger_scraping store df failure = (store, .fail msg)
    ∧ respStatus (trigger_scraping store df failure).2 = 500 := by
  have hres : trigger_scraping store df failure = (store, .fail msg) := by
    cases df with
    | none => simp [trigger_scraping] at hfail
    | some rows =>
        by_cases he : rows.isEmpty
        · simp [trigger_scraping, he] at hfail
        · cases failure with
          | some km =>
              obtain ⟨k, m⟩ := km
              have : m = msg := by
                simpa [trigger_scraping, he] using hfail
              simp [trigger_scraping, he, rollback, this]
          | none =>
              cases hc : commitBooks store (ingestLoop store [] 0 rows).1 with
              | ok db' => simp [trigger_scraping, he, hc] at hfail
              | error e =>
                  have : e = msg := by
                    simpa [trigger_scraping, he, hc] using hfail
                  simp [trigger_scraping, he, hc, rollback, this]
  refine ⟨by rw [hres], hres, ?_⟩
  rw [hfail]
  rfl

def failRow : ScrapedRow := ⟨"T1", none, none, none, some "Fiction", "u1", none⟩

theorem trigger_scraping_atomic_on_failure_witness :
    (trigger_scraping [] (some [failRow]) (some (0, "boom"))).1 = []
    ∧ trigger_scraping [] (some [failRow]) (some (0, "boom")) = ([], .fail "boom")
    ∧ respStatus (trigger_scraping [] (some [failRow]) (some (0, "boom"))).2 = 500 :=
  trigger_scraping_atomic_on_failure [] (some [failRow]) (some (0, "boom")) "boom" rfl

/-- Bool-level membership bridge for the title lookup of the ingestion loop. -/
theorem contains_eq_mem_decide (l : List String) (t : String) :
    l.contains t = decide (t ∈ l) := by
  simp [List.contains, List.elem_eq_mem]

/-- The titles of converted rows are the row titles. -/
theorem map_title_rowToBook (rows : List ScrapedRow) :
    (rows.map rowToBook).map Book.title = rows.map ScrapedRow.title := by
  rw [List.map_map]
  rfl

/-- When every row title is already present among the committed rows, the
ingestion loop stages nothing and counts nothing. -/
theorem ingestLoop_skip_all (store : List Book) :
    ∀ (rows : List ScrapedRow) (staged : List Book) (n : Nat),
      (∀ r ∈ rows, r.title ∈ store.map Book.title) →
      ingestLoop store staged n rows = (staged, n) := by
  intro rows
  induction rows with
  | nil => intro staged n _; rfl
  | cons r rs ih =>
      intro staged n hall
      have hmem : r.title ∈ (store ++ staged).map Book.title := by
        rw [List.map_append]
        exact List.mem_append.mpr (Or.inl (hall r (by simp)))
      have hc : ((store ++ staged).map Book.title).contains r.title = true := by
        rw [contains_eq_mem_decide]
        simpa using hmem
      rw [ingestLoop, if_pos hc]
      exact ih staged n (fun x hx => hall x (by simp [hx]))

/-- With pairwise-distinct row titles, the ingestion loop stages exactly the
rows whose title is absent from the committed rows and the rows staged so far,
in input order, and counts them. -/
theorem ingestLoop_eq_filter (store : List Book) :
    ∀ (rows : List ScrapedRow) (staged : List Book) (n : Nat),
      (rows.map ScrapedRow.title).Nodup →
      ingestLoop store staged n rows =
        (staged ++ (rows.filter
            (fun r => !(((store ++ staged).map Book.title).contains r.title))).map rowToBook,
         n + (rows.filter
            (fun r => !(((store ++ staged).map Book.title).contains r.title))).length) := by
  intro rows
  induction rows with
  | nil => intro staged n _; simp [ingestLoop]
  | cons r rs ih =>
      intro staged n hnd
      rw [List.map_cons, List.nodup_cons] at hnd
      obtain ⟨hrt, hnd'⟩ := hnd
      by_cases hmem : r.title ∈ (store ++ staged).map Book.title
      · have hc : ((store ++ staged).map Book.title).contains r.title = true := by
          rw [contains_eq_mem_decide]; simpa using hmem
        have hPr : (!(((store ++ staged).map Book.title).contains r.title)) = false := by
          rw [hc]; rfl
        rw [ingestLoop, if_pos hc, ih staged n hnd', List.filter_cons, hPr,
          if_neg Bool.false_ne_true]
      · have hc : ((store ++ staged).map Book.title).contains r.title = false := by
          rw [contains_eq_mem_decide]; simpa using hmem
        have hPr : (!(((store ++ staged).map Book.title).contains r.title)) = true := by
          rw [hc]; rfl
        rw [ingestLoop, if_neg (fun hEq => Bool.false_ne_true (hc ▸ hEq)),
          ih (staged ++ [rowToBook r]) (n + 1) hnd']
        have hpred : ∀ x ∈ rs,
            (!(((store ++ (staged ++ [rowToBook r])).map Book.title).contains x.title))
              = (!(((store ++ staged).map Book.title).contains x.title)) := by
          intro x hx
          have hxt : x.title ≠ r.title := by
            intro hEq
            exact hrt (hEq ▸ List.mem_map_of_mem ScrapedRow.title hx)
          have hiff : (x.title ∈ (store ++ (staged ++ [rowToBook r])).map Book.title)
              ↔ (x.title ∈ (store ++ staged).map Book.title) := by
            simp only [List.map_append, List.mem_append, List.map_cons, List.map_nil,
              List.mem_singleton, rowToBook]
            constructor
            · rintro (h1 | h2 | h3)
              · exact Or.inl h1
              · exact Or.inr h2
              · exact absurd h3 hxt
            · rintro (h1 | h2)
              · exact Or.inl h1
              · exact Or.inr (Or.inl h2)
          rw [contains_eq_mem_decide, contains_eq_mem_decide, decide_eq_decide.mpr hiff]
        rw [List.filter_congr hpred, List.filter_cons, hPr, if_pos rfl]
        refine Prod.ext ?_ ?_
        · show staged ++ [rowToBook r] ++ _ = staged ++ _
          rw [List.map_cons, List.append_assoc]
          rfl
        · show n + 1 + _ = n + _
          rw [List.length_cons]
          omega

/-- Claim C1: ingestion de-duplicates by exact title.  For a dataframe of rows
with pairwise-distinct titles (the shape produced by the crawler, whose
categories are always present), the scrape-trigger inserts exactly the rows
whose title is not already in the books store, reporting that count and
`total_processed = N`; when no title is present beforehand, the first run
inserts all `N` rows and a second identical run inserts 0, leaves the books
table unchanged, and still reports `total_processed = N`. -/
theorem ingestion_dedup_by_title (store : List Book) (rows : List ScrapedRow)
    (hne : rows ≠ [])
    (hnd : (rows.map ScrapedRow.title).Nodup)
    (hcat : ∀ r ∈ rows, r.category.isSome = true) :
    (trigger_scraping store (some rows) none =
      (store ++ (rows.filter
          (fun r => !((store.map Book.title).contains r.title))).map rowToBook,
       .ok (rows.filter
          (fun r => !((store.map Book.title).contains r.title))).length rows.length))
    ∧ ((∀ r ∈ rows, r.title ∉ store.map Book.title) →
        trigger_scraping store (some rows) none =
          (store ++ rows.map rowToBook, .ok rows.length rows.length)
        ∧ trigger_scraping (store ++ rows.map rowToBook) (some rows) none =
          (store ++ rows.map rowToBook, .ok 0 rows.length)) := by
  have hne' : rows.isEmpty = false := by
    cases rows with
    | nil => exact absurd rfl hne
    | cons a l => rfl
  have hloop := ingestLoop_eq_filter store rows [] 0 hnd
  simp only [List.nil_append, List.append_nil, Nat.zero_add] at hloop
  have hallcat : ((rows.filter
      (fun r => !((store.map Book.title).contains r.title))).map rowToBook).all
        (fun b => b.category.isSome) = true := by
    rw [List.all_eq_true]
    intro b hb
    obtain ⟨r, hr, rfl⟩ := List.mem_map.mp hb
    exact hcat r (List.mem_filter.mp hr).1
  have hcommit : commitBooks store ((rows.filter
      (fun r => !((store.map Book.title).contains r.title))).map rowToBook)
      = .ok (store ++ (rows.filter
          (fun r => !((store.map Book.title).contains r.title))).map rowToBook) := by
    rw [commitBooks, if_pos hallcat]
  have hmain : trigger_scraping store (some rows) none =
      (store ++ (rows.filter
          (fun r => !((store.map Book.title).contains r.title))).map rowToBook,
       .ok (rows.filter
          (fun r => !((store.map Book.title).contains r.title))).length rows.length) := by
    simp only [trigger_scraping]
    rw [if_neg (fun h => Bool.false_ne_true (hne' ▸ h))]
    rw [hloop]
    dsimp only
    rw [hcommit]
  refine ⟨hmain, fun hdisj => ?_⟩
  have hfilter : rows.filter (fun r => !((store.map Book.title).contains r.title)) = rows := by
    rw [List.filter_eq_self]
    intro r hr
    rw [contains_eq_mem_decide]
    simpa using hdisj r hr
  constructor
  · rw [hmain, hfilter]
  · have hall2 : ∀ r ∈ rows, r.title ∈ (store ++ rows.map rowToBook).map Book.title := by
      intro r hr
      rw [List.map_append, map_title_rowToBook]
      exact List.mem_append.mpr (Or.inr (List.mem_map_of_mem ScrapedRow.title hr))
    have hloop2 := ingestLoop_skip_all (store ++ rows.map rowToBook) rows [] 0 hall2
    have hcommit2 : commitBooks (store ++ rows.map rowToBook) ([] : List Book)
        = .ok (store ++ rows.map rowToBook) := by
      rw [commitBooks]
      simp
    simp only [trigger_scraping]
    rw [if_neg (fun h => Bool.false_ne_true (hne' ▸ h))]
    rw [hloop2]
    dsimp only
    rw [hcommit2]

def ingRow1 : ScrapedRow := ⟨"Book A", some "£10", some "In stock", some 3, some "Travel", "a.html", none⟩

def ingRow2 : ScrapedRow := ⟨"Book B", none, none, none, some "Poetry", "b.html", none⟩

theorem ingestion_dedup_by_title_witness :
    trigger_scraping [] (some [ingRow1, ingRow2]) none =
      ([rowToBook ingRow1, rowToBook ingRow2], .ok 2 2)
    ∧ trigger_scraping [rowToBook ingRow1, rowToBook ingRow2]
        (some [ingRow1, ingRow2]) none =
      ([rowToBook ingRow1, rowToBook ingRow2], .ok 0 2) := by
  have H := (ingestion_dedup_by_title [] [ingRow1, ingRow2]
    (by decide) (by decide) (by decide)).2 (by decide)
  exact ⟨H.1, H.2⟩

/-- When every class token of a rating element is unrecognized, the rating
scan yields no rating. -/
theorem firstRating_none (cls : List String)
    (h : ∀ c ∈ cls, RATING_MAP.lookup c = none) : firstRating cls = none := by
  induction cls with
  | nil => rfl
  | cons c cs ih =>
      rw [firstRating, h c (by simp)]
      exact ih (fun x hx => h x (by simp [hx]))

/-- Claim C8 counterexample: a product-card fragment without the `h3 a` link
element makes `parse_book_card` raise (an AttributeError from dereferencing
`None`) instead of returning a complete entry, so parsing does not degrade for
every card fragment. -/
theorem parse_book_card_missing_link_raises :
    parse_book_card ⟨none, some "£10.00", some "In stock", none, none⟩ "base.html"
      (some "Travel")
      = .error "AttributeError: NoneType object has no attribute get" := rfl

/-- Claim C8 (amended): for every product-card fragment that contains the
`h3 a` link element, parsing never aborts the card: it returns a complete
scraped entry in which every missing optional element degrades to an absent
field — a missing price, availability, rating or image element (and a rating
element with no recognized class token) yields `none`, and a link without a
`title` attribute yields the empty title. -/
theorem parse_book_card_degrades (card : Card) (base : String) (cat : Option String)
    (hlink : card.link.isSome = true) :
    ∃ r, parse_book_card card base cat = .ok r
      ∧ (card.price_el = none → r.price = none)
      ∧ (card.avail_el = none → r.availability = none)
      ∧ (card.rating_p = none → r.rating = none)
      ∧ (∀ cls, card.rating_p = some cls → (∀ c ∈ cls, RATING_MAP.lookup c = none) →
          r.rating = none)
      ∧ (card.img = none → r.image_url = none)
      ∧ (∀ a, card.link = some a → a.title = none → r.title = "")
      ∧ r.category = cat := by
  rcases card with ⟨link, pr, av, rp, im⟩
  cases link with
  | none => simp at hlink
  | some a =>
      refine ⟨_, rfl, ?_, ?_, ?_, ?_, ?_, ?_, rfl⟩
      · intro h; rw [h]
      · intro h; rw [h]
      · intro h; rw [h]
      · intro cls hcls hrec
        rw [hcls]
        exact firstRating_none cls hrec
      · intro h; rw [h]; rfl
      · intro a' ha' ht
        have : a' = a := by injection ha' with h; exact h.symm
        subst this
        rw [ht]
        rfl

def degradeCard : Card := ⟨some ⟨none, none⟩, none, none, some ["weird"], none⟩

theorem parse_book_card_degrades_witness :
    ∃ r, parse_book_card degradeCard "b.html" (some "Poetry") = .ok r
      ∧ (degradeCard.price_el = none → r.price = none)
      ∧ (degradeCard.avail_el = none → r.availability = none)
      ∧ (degradeCard.rating_p = none → r.rating = none)
      ∧ (∀ cls, degradeCard.rating_p = some cls →
          (∀ c ∈ cls, RATING_MAP.lookup c = none) → r.rating = none)
      ∧ (degradeCard.img = none → r.image_url = none)
      ∧ (∀ a, degradeCard.link = some a → a.title = none → r.title = "")
      ∧ r.category = some "Poetry" :=
  parse_book_card_degrades degradeCard "b.html" (some "Poetry") rfl

/-- The category returned by a successful `parse_category_page` is the known
category, with the page detection as Python-or fallback. -/
theorem parse_category_page_ok_cat (site : String → PageDoc) (u : String)
    (kc : Option String) {rows : List ScrapedRow} {next : Option String}
    {cat : Option String}
    (h : parse_category_page site u kc = .ok (rows, next, cat)) :
    cat = pyOrOpt kc (extract_category_from_listing (site u).breadcrumb_active u) := by
  unfold parse_category_page at h
  dsimp only at h
  cases hm : (site u).cards.mapM (fun c => parse_book_card c u
      (pyOrOpt kc (extract_category_from_listing (site u).breadcrumb_active u))) with
  | error e => rw [hm] at h; cases h
  | ok rs =>
      rw [hm] at h
      injection h with h'
      exact congrArg (fun p => p.2.2) h'.symm

/-- Invariant proof for the crawl loop: with a non-empty sidebar name, every
accumulated entry carries the sidebar name. -/
theorem crawl_go_cat (site : String → PageDoc) (name : String) (hname : name ≠ "") :
    ∀ (fuel : Nat) (url? : Option String) (acc : List ScrapedRow),
      (∀ e ∈ acc, e.category = some name) →
      ∀ entries, crawl_go site name fuel url? acc = .ok entries →
      ∀ e ∈ entries, e.category = some name := by
  intro fuel
  induction fuel with
  | zero =>
      intro url? acc hacc entries hok
      cases url? with
      | none =>
          injection hok with h
          exact h ▸ hacc
      | some u => exact Except.noConfusion hok
  | succ fuel ih =>
      intro url? acc hacc entries hok
      cases url? with
      | none =>
          injection hok with h
          exact h ▸ hacc
      | some u =>
          cases hpc : parse_category_page site u (some name) with
          | error e => rw [crawl_go, hpc] at hok; exact Except.noConfusion hok
          | ok t =>
              obtain ⟨rows, next, detected⟩ := t
              rw [crawl_go, hpc] at hok
              have hdet := parse_category_page_ok_cat site u (some name) hpc
              have hcn : pyStrOr detected name = name := by
                rw [hdet]
                exact pyStrOr_pyOrOpt_self name _ hname
              refine ih next _ ?_ entries hok
              intro e he
              rcases List.mem_append.mp he with h1 | h2
              · exact hacc e h1
              · obtain ⟨r, hr, rfl⟩ := List.mem_map.mp h2
                simp [hcn]

/-- Claim C6 (amended): crawling one category to exhaustion with a non-empty
sidebar-supplied name tags every returned entry with the sidebar name — the
sidebar-supplied category is preferred over the page-detected one, which could
only be consulted when the sidebar name is empty. -/
theorem crawl_category_uses_sidebar_name (site : String → PageDoc) (fuel : Nat)
    (name url : String) (entries : List ScrapedRow)
    (hname : name ≠ "")
    (hok : crawl_category site fuel name url = .ok entries) :
    ∀ e ∈ entries, e.category = some name :=
  crawl_go_cat site name hname fuel (some url) [] (by intro e he; cases he) entries hok

def sbCard : Card := ⟨some ⟨some "T", some "t.html"⟩, none, none, none, none⟩

/-- A one-page category listing whose breadcrumb reads "Travel". -/
def sbSite : String → PageDoc := fun _ => ⟨some "Travel", [sbCard], none⟩

/-- Claim C6 counterexample: crawling with sidebar name "Poetry" over a page
whose own breadcrumb detection yields "Travel" returns the entry tagged
"Poetry" — the page-detected name is not used even though the page yields
one, contradicting the claim that page detection is preferred. -/
theorem crawl_category_sidebar_wins :
    crawl_category sbSite 2 "Poetry" "u" =
      .ok [⟨"T", none, none, none, some "Poetry", "t.html", none⟩]
    ∧ extract_category_from_listing (sbSite "u").breadcrumb_active "u" = some "Travel"
    ∧ ("Poetry" : String) ≠ "Travel" := by
  refine ⟨rfl, by decide, by decide⟩

theorem crawl_category_uses_sidebar_name_witness :
    (⟨"T", none, none, none, some "Poetry", "t.html", none⟩ : ScrapedRow).category
      = some "Poetry" :=
  crawl_category_uses_sidebar_name sbSite 2 "Poetry" "u"
    [⟨"T", none, none, none, some "Poetry", "t.html", none⟩] (by decide) rfl
    ⟨"T", none, none, none, some "Poetry", "t.html", none⟩ (List.mem_singleton.mpr rfl)

/-- A LIKE pattern fragment is wildcard-free when it contains neither `%` nor `_`. -/
def noWild (l : List Char) : Bool := l.all (fun c => !(c == '%') && !(c == '_'))

theorem likeMatch_cons (a : Char) (t s : List Char) :
    likeMatch (a :: t) s =
      (if a = '%' then suffAny (likeMatch t) s
       else
         match s with
         | [] => false
         | c :: s' => (a == '_' || a == c) && likeMatch t s') := rfl

theorem suffAny_congr {f g : List Char → Bool} (h : ∀ t, f t = g t) :
    ∀ s, suffAny f s = suffAny g s
  | [] => h []
  | c :: s => by rw [suffAny, suffAny, h (c :: s), suffAny_congr h s]

theorem suffAny_likeMatch_nil : ∀ s, suffAny (likeMatch []) s = true
  | [] => rfl
  | c :: s => by
      rw [suffAny, suffAny_likeMatch_nil s, Bool.or_true]

theorem containsSub_nil : ∀ h, containsSub ([] : List Char) h = true
  | [] => rfl
  | c :: s => by
      rw [containsSub, suffAny]
      have := containsSub_nil s
      rw [containsSub] at this
      rw [this, Bool.or_true]

/-- For a wildcard-free fragment, matching `fragment%` is exactly a prefix test. -/
theorem likeMatch_tail_eq (t : List Char) (hw : noWild t = true) :
    ∀ s, likeMatch (t ++ ['%']) s = t.isPrefixOf s := by
  induction t with
  | nil =>
      intro s
      rw [List.nil_append, likeMatch_cons, if_pos rfl, suffAny_likeMatch_nil s]
      cases s <;> rfl
  | cons a t ih =>
      rw [noWild, List.all_cons, Bool.and_eq_true] at hw
      obtain ⟨ha, hw'⟩ := hw
      rw [Bool.and_eq_true, Bool.not_eq_true', Bool.not_eq_true'] at ha
      obtain ⟨hap, hau⟩ := ha
      have hw'' : noWild t = true := hw'
      intro s
      rw [List.cons_append, likeMatch_cons,
        if_neg (fun hEq => by rw [hEq] at hap; simp at hap)]
      cases s with
      | nil => rfl
      | cons c s' =>
          show ((a == '_' || a == c) && likeMatch (t ++ ['%']) s')
              = (a :: t).isPrefixOf (c :: s')
          have hrhs : (a :: t).isPrefixOf (c :: s') = ((a == c) && t.isPrefixOf s') := rfl
          rw [hrhs, hau, Bool.false_or, ih hw'' s']

/-- For a wildcard-free fragment `t`, the pattern `%t%` matches a string
exactly when `t` occurs in it as a contiguous substring. -/
theorem likeMatch_percents (t : List Char) (hw : noWild t = true) (s : List Char) :
    likeMatch ('%' :: (t ++ ['%'])) s = containsSub t s := by
  rw [likeMatch_cons, if_pos rfl, suffAny_congr (fun u => likeMatch_tail_eq t hw u) s]
  rfl

theorem lowCh_keeps_nonwild (c : Char) (h : (!(c == '%') && !(c == '_')) = true) :
    (!(lowCh c == '%') && !(lowCh c == '_')) = true := by
  unfold lowCh
  split
  all_goals first | decide | exact h

theorem noWild_lowerL (l : List Char) (h : noWild l = true) : noWild (lowerL l) = true := by
  rw [noWild, List.all_eq_true]
  intro x hx
  obtain ⟨c, hc, rfl⟩ := List.mem_map.mp hx
  rw [noWild, List.all_eq_true] at h
  exact lowCh_keeps_nonwild c (h c hc)

/-- For a wildcard-free parameter, the `ilike` filter of the code is the
case-insensitive substring containment of the spec. -/
theorem ilikeTest_eq_containsCI (t target : String) (hw : noWild t.data = true) :
    ilikeTest ("%" ++ t ++ "%") target = containsCI t target := by
  rw [ilikeTest]
  have hdata : ("%" ++ t ++ "%").data = '%' :: (t.data ++ ['%']) := by
    simp [String.data_append]
  rw [hdata]
  have hlow : lowerL ('%' :: (t.data ++ ['%'])) = '%' :: (lowerL t.data ++ ['%']) := by
    rw [lowerL, List.map_cons, List.map_append]
    rfl
  rw [hlow, likeMatch_percents (lowerL t.data) (noWild_lowerL t.data hw) (lowerL target.data)]
  rfl

theorem containsCI_empty_needle (target : String) : containsCI "" target = true :=
  containsSub_nil (lowerL target.data)

theorem string_data_ne_nil {t : String} (ht : t ≠ "") : t.data ≠ [] := by
  intro h
  exact ht (by cases t with | mk d => cases h; rfl)

theorem containsCI_to_empty (t : String) (ht : t ≠ "") : containsCI t "" = false := by
  rw [containsCI]
  cases hd : t.data with
  | nil => exact absurd hd (string_data_ne_nil ht)
  | cons c l => rfl

/-- The title stage of the search endpoint equals the spec filter for a
wildcard-free provided parameter. -/
theorem title_filter_eq (store : List Book) (t : String) (hw : noWild t.data = true) :
    (if t != "" then store.filter (fun b => ilikeTest ("%" ++ t ++ "%") b.title) else store)
    = store.filter (fun b => containsCI t b.title) := by
  by_cases h0 : t = ""
  · subst h0
    rw [if_neg (by decide)]
    exact (List.filter_eq_self.mpr (fun b _ => containsCI_empty_needle b.title)).symm
  · rw [if_pos (by simpa using h0)]
    exact List.filter_congr (fun b _ => ilikeTest_eq_containsCI t b.title hw)

/-- The category stage of the search endpoint equals the spec filter for a
wildcard-free provided parameter (an absent stored category behaves as the
empty string: it never contains a non-empty needle, and the empty needle
applies no effective filter on either side). -/
theorem cat_filter_eq (l : List Book) (c : String) (hw : noWild c.data = true) :
    (if c != "" then l.filter (ilikeCategory ("%" ++ c ++ "%")) else l)
    = l.filter (fun b => containsCI c (b.category.getD "")) := by
  by_cases h0 : c = ""
  · subst h0
    rw [if_neg (by decide)]
    exact (List.filter_eq_self.mpr
      (fun b _ => containsCI_empty_needle (b.category.getD ""))).symm
  · rw [if_pos (by simpa using h0)]
    refine List.filter_congr (fun b _ => ?_)
    cases hcatb : b.category with
    | none =>
        rw [ilikeCategory, hcatb]
        exact (containsCI_to_empty c h0).symm
    | some x =>
        rw [ilikeCategory, hcatb]
        exact ilikeTest_eq_containsCI c x hw

/-- Claim C4 (amended): for every store and search request whose provided
parameters contain no SQL LIKE wildcard character (`%` or `_`), the endpoint
returns exactly the books whose title, respectively category, contains the
parameter as a case-insensitive substring — each filter applied only when its
parameter is provided, conjunctively when both are — and 404 exactly when the
result is empty.  A parameter containing `%` or `_` is instead interpreted
under SQL LIKE wildcard semantics, where the claim as stated fails. -/
theorem searchResp_congr {l1 l2 : List Book} (h : l1 = l2) :
    (if l1.isEmpty then SearchResp.notFound else .found l1)
      = (if l2.isEmpty then SearchResp.notFound else .found l2) := by
  rw [h]

theorem search_books_matches_spec (store : List Book) (title category : Option String)
    (ht : ∀ s, title = some s → noWild s.data = true)
    (hc : ∀ s, category = some s → noWild s.data = true) :
    search_books store title category = search_books_spec store title category := by
  cases title with
  | none =>
      cases category with
      | none => rfl
      | some c =>
          refine searchResp_congr ?_
          dsimp only
          rw [cat_filter_eq store c (hc c rfl)]
  | some t =>
      cases category with
      | none =>
          refine searchResp_congr ?_
          dsimp only
          rw [title_filter_eq store t (ht t rfl)]
      | some c =>
          refine searchResp_congr ?_
          dsimp only
          rw [title_filter_eq store t (ht t rfl), cat_filter_eq _ c (hc c rfl)]

def cxBook : Book := ⟨"AB", some "C", none, none, "u", none⟩

/-- Claim C4 counterexample: the one-character parameter `_` is a LIKE
wildcard; the code returns the book titled "AB" (200) although "AB" does not
contain "_" as a substring, where the claim as stated demands the empty result
(404). -/
theorem search_underscore_counterexample :
    search_books [cxBook] (some "_") none = .found [cxBook]
    ∧ search_books_spec [cxBook] (some "_") none = .notFound := by
  exact ⟨rfl, rfl⟩

def gatsbyBook : Book := ⟨"The Great Gatsby", some "Classics", none, none, "u", none⟩

theorem search_books_matches_spec_witness :
    search_books [gatsbyBook] (some "gatsby") (some "CLASS")
      = search_books_spec [gatsbyBook] (some "gatsby") (some "CLASS")
    ∧ search_books [gatsbyBook] (some "gatsby") (some "CLASS") = .found [gatsbyBook] := by
  refine ⟨search_books_matches_spec [gatsbyBook] (some "gatsby") (some "CLASS")
    (fun s hs => by cases hs; decide) (fun s hs => by cases hs; decide), rfl⟩

/-- Claim C1 counterexample: an input table with the same title twice violates
the claim as stated — both rows have a title that is not already present in
the books store, yet only the first is inserted (the pre-insert lookup also
sees rows staged earlier in the same run), so the table ends with 1 row and
the reported newly-added count is 1, not N = 2. -/
theorem ingestion_duplicate_rows_counterexample :
    trigger_scraping [] (some [ingRow1, ingRow1]) none =
      ([rowToBook ingRow1], .ok 1 2)
    ∧ [rowToBook ingRow1].length ≠ 2 := by
  exact ⟨rfl, by decide⟩

/-- Claim C3 counterexample: the empty password does not verify against the
stored hash, yet logging in with it returns 400 "Missing credentials"
(Python falsiness) rather than the 401 the claim demands for any
non-verifying password. -/
theorem login_empty_password_counterexample :
    checkHashW (genHashW "p1") "" = false
    ∧ login checkHashW 0 ((register_user genHashW [] (some "u1") (some "p1")).1)
        (some "u1") (some "") = .err 400 "Missing credentials"
    ∧ AuthResp.err 400 "Missing credentials" ≠ .err 401 "Invalid credentials" := by
  exact ⟨rfl, rfl, by decide⟩

end Api
